import Mathlib

/-!
Verification of `kenyan_phone_fields.py`: three validator/normalizer pairs
for Kenyan mobile phone numbers (Safaricom, Airtel, generic), packaged as
Django `CharField` subclasses.

Modelling decisions, shared by every definition below:

* A Python `str` value is a `String` (a list of characters); a value that may
  be `None` is an `Option String`, `none` standing for Python `None`.
  Python's truthiness test `if not value` succeeds exactly on `None` and the
  empty string.
* Each validator either returns normally or raises exactly one
  `ValidationError`; this is modelled by the result type `VResult`, whose
  constructors record which `raise` fired (`invalidPrefix` for the
  "not a valid ... prefix" message, `invalidLength` for the
  "must be 9 digits long after removing country code" message,
  `invalidFormat` for the "not a valid Kenyan mobile number format" message)
  and `ok` for a normal return.
* `value.startswith(p)` is the list relation `p.toList <+: value.toList`,
  and the slice `value[k:]` is `List.drop k`; `'254' + value[k:]` is
  `['2','5','4'] ++ cs.drop k`.
* The compiled regex `KENYAN_MOBILE_REGEX = ^(?:\+?254|0)(7\d{8}|1\d{8})$`
  used with `re.match` is embedded as an executable matcher.  The
  alternation `(?:\+?254|0)` is deterministic — the three alternatives
  `+254` / `254` / `0` start with pairwise distinct characters, so no
  backtracking across alternatives can occur — and is compiled to an
  if-chain on the string's head.  Python's `$` matches at the end of the
  string OR just before a single newline that ends the string; this is
  modelled faithfully.  `\d` in a `str` pattern compiled without `re.ASCII`
  matches every Unicode decimal digit (general category Nd — CPython's
  `SRE_UNI_IS_DIGIT`, i.e. `str.isdecimal`); it is modelled by `isPyDigit`,
  an executable predicate over the 62 contiguous Nd codepoint ranges of
  Unicode 14.0 (the table shipped with CPython 3.11).
* The Django base-class hooks `super().to_python(value)` and
  `super().get_prep_value(value)` belong to the external framework, which the
  specification scopes out as a collaborator whose conversion coerces
  non-string input to a string and leaves `str`/`None` unchanged; on
  `Option String` they are therefore the identity and are not written
  explicitly.
* Each Python function is embedded as its own Lean definition (the five
  textually identical normalizer bodies are NOT shared), as a String-level
  wrapper around a list-level body named `..._l`, so that statements about
  the character-level behaviour stay readable.
-/

/-- Outcome of running one validator: `ok` for a normal return, otherwise
the constructor names which `ValidationError` was raised. -/
inductive VResult : Type
  | ok : VResult
  | invalidPrefix : VResult
  | invalidLength : VResult
  | invalidFormat : VResult
deriving DecidableEq, Repr

/-- The `safaricom_prefixes` table, verbatim from `validate_safaricom_number`. -/
def safaricom_prefixes : List String :=
  ["0700", "0701", "0702", "0703", "0704", "0705", "0706", "0707", "0708", "0709",
   "0710", "0711", "0712", "0713", "0714", "0715", "0716", "0717", "0718", "0719",
   "0720", "0721", "0722", "0723", "0724", "0725", "0726", "0727", "0728", "0729",
   "0740", "0741", "0742", "0743", "0745", "0746", "0748",
   "0757", "0758", "0759",
   "0768", "0769",
   "0790", "0791", "0792", "0793", "0794", "0795", "0796", "0797", "0798", "0799",
   "0110", "0111", "0112", "0113", "0114", "0115"]

/-- The `airtel_prefixes` table, verbatim from `validate_airtel_number`. -/
def airtel_prefixes : List String :=
  ["0730", "0731", "0732", "0733", "0734", "0735", "0736", "0737", "0738", "0739",
   "0750", "0751", "0752", "0753", "0754", "0755", "0756",
   "0780", "0781", "0782", "0783", "0784", "0785", "0786", "0787", "0788", "0789",
   "0100", "0101", "0102", "0103", "0104", "0105", "0106", "0107", "0108", "0109"]

/-- Body of `validate_safaricom_number` on a non-empty string `value`
(as its character list):
normalize by stripping `+254`, else `254`, else `0`; raise if no table entry
matches `normalized.startswith(prefix[1:])`; then raise if
`len(normalized) != 9`. -/
def validate_safaricom_number_l (cs : List Char) : VResult :=
  let normalized :=
    if ['+', '2', '5', '4'] <+: cs then cs.drop 4
    else if ['2', '5', '4'] <+: cs then cs.drop 3
    else if ['0'] <+: cs then cs.drop 1
    else cs
  if ¬ ∃ p ∈ safaricom_prefixes, p.toList.drop 1 <+: normalized then
    VResult.invalidPrefix
  else if normalized.length ≠ 9 then VResult.invalidLength
  else VResult.ok

/-- `validate_safaricom_number(value)`: `if not value: return`, else run the
prefix and length checks. -/
def validate_safaricom_number (v : Option String) : VResult :=
  match v with
  | none => VResult.ok
  | some s => if s = "" then VResult.ok else validate_safaricom_number_l s.toList

/-- Body of `validate_airtel_number` on a non-empty string: identical logic
to the Safaricom validator but over `airtel_prefixes`. -/
def validate_airtel_number_l (cs : List Char) : VResult :=
  let normalized :=
    if ['+', '2', '5', '4'] <+: cs then cs.drop 4
    else if ['2', '5', '4'] <+: cs then cs.drop 3
    else if ['0'] <+: cs then cs.drop 1
    else cs
  if ¬ ∃ p ∈ airtel_prefixes, p.toList.drop 1 <+: normalized then
    VResult.invalidPrefix
  else if normalized.length ≠ 9 then VResult.invalidLength
  else VResult.ok

/-- `validate_airtel_number(value)`. -/
def validate_airtel_number (v : Option String) : VResult :=
  match v with
  | none => VResult.ok
  | some s => if s = "" then VResult.ok else validate_airtel_number_l s.toList

/-- The 62 codepoint ranges (inclusive) of the Unicode 14.0 characters of
general category Nd (decimal digit).  Python's `\d` on a `str` pattern with
no `re.ASCII` flag matches exactly these characters. -/
def unicodeDecimalRanges : List (Nat × Nat) :=
  [(0x0030, 0x0039), (0x0660, 0x0669), (0x06F0, 0x06F9), (0x07C0, 0x07C9), (0x0966, 0x096F),
   (0x09E6, 0x09EF), (0x0A66, 0x0A6F), (0x0AE6, 0x0AEF), (0x0B66, 0x0B6F), (0x0BE6, 0x0BEF),
   (0x0C66, 0x0C6F), (0x0CE6, 0x0CEF), (0x0D66, 0x0D6F), (0x0DE6, 0x0DEF), (0x0E50, 0x0E59),
   (0x0ED0, 0x0ED9), (0x0F20, 0x0F29), (0x1040, 0x1049), (0x1090, 0x1099), (0x17E0, 0x17E9),
   (0x1810, 0x1819), (0x1946, 0x194F), (0x19D0, 0x19D9), (0x1A80, 0x1A89), (0x1A90, 0x1A99),
   (0x1B50, 0x1B59), (0x1BB0, 0x1BB9), (0x1C40, 0x1C49), (0x1C50, 0x1C59), (0xA620, 0xA629),
   (0xA8D0, 0xA8D9), (0xA900, 0xA909), (0xA9D0, 0xA9D9), (0xA9F0, 0xA9F9), (0xAA50, 0xAA59),
   (0xABF0, 0xABF9), (0xFF10, 0xFF19), (0x104A0, 0x104A9), (0x10D30, 0x10D39), (0x11066, 0x1106F),
   (0x110F0, 0x110F9), (0x11136, 0x1113F), (0x111D0, 0x111D9), (0x112F0, 0x112F9), (0x11450, 0x11459),
   (0x114D0, 0x114D9), (0x11650, 0x11659), (0x116C0, 0x116C9), (0x11730, 0x11739), (0x118E0, 0x118E9),
   (0x11950, 0x11959), (0x11C50, 0x11C59), (0x11D50, 0x11D59), (0x11DA0, 0x11DA9), (0x16A60, 0x16A69),
   (0x16AC0, 0x16AC9), (0x16B50, 0x16B59), (0x1D7CE, 0x1D7FF), (0x1E140, 0x1E149), (0x1E2F0, 0x1E2F9),
   (0x1E950, 0x1E959), (0x1FBF0, 0x1FBF9)]

/-- Python's `\d` character class on `str` patterns: a Unicode decimal
digit (category Nd). -/
def isPyDigit (c : Char) : Bool :=
  unicodeDecimalRanges.any (fun r => decide (r.1 ≤ c.toNat) && decide (c.toNat ≤ r.2))

/-- `(7\d{8}|1\d{8})$` applied to the rest of the input after the country
prefix: a head of `7` or `1`, then 8 Unicode decimal digits, then `$` (end of input, or
a single final newline — Python `$` semantics). -/
def kenyanGroupEnd (cs : List Char) : Bool :=
  if ['7'] <+: cs ∨ ['1'] <+: cs then
    ((cs.drop 1).take 8).all isPyDigit &&
      ((cs.drop 1).length = 8 ||
        ((cs.drop 1).length = 9 && (cs.drop 1).drop 8 = ['\n']) : Bool)
  else false

/-- `re.match(KENYAN_MOBILE_REGEX, value)` as a Bool: the anchored pattern
`^(?:\+?254|0)(7\d{8}|1\d{8})$`.  The leading alternation is deterministic
(distinct first characters), hence the if-chain. -/
def KENYAN_MOBILE_REGEX_match (cs : List Char) : Bool :=
  if ['+', '2', '5', '4'] <+: cs then kenyanGroupEnd (cs.drop 4)
  else if ['2', '5', '4'] <+: cs then kenyanGroupEnd (cs.drop 3)
  else if ['0'] <+: cs then kenyanGroupEnd (cs.drop 1)
  else false

/-- `validate_kenyan_number(value)`: `if not value: return`, else raise a
format error unless the regex matches. -/
def validate_kenyan_number (v : Option String) : VResult :=
  match v with
  | none => VResult.ok
  | some s =>
    if s = "" then VResult.ok
    else if KENYAN_MOBILE_REGEX_match s.toList then VResult.ok
    else VResult.invalidFormat

/-- Body of `SafaricomPhoneField.to_python` on a non-empty string:
`+254...` ↦ `254` + rest; else `0...` ↦ `254` + rest; else prepend `254`
unless the value already starts with `254`. -/
def SafaricomPhoneField.to_python_l (cs : List Char) : List Char :=
  if ['+', '2', '5', '4'] <+: cs then ['2', '5', '4'] ++ cs.drop 4
  else if ['0'] <+: cs then ['2', '5', '4'] ++ cs.drop 1
  else if ¬ ['2', '5', '4'] <+: cs then ['2', '5', '4'] ++ cs
  else cs

/-- `SafaricomPhoneField.to_python(value)` (the framework's
`super().to_python` is the identity on `str`/`None`, see the header). -/
def SafaricomPhoneField.to_python (v : Option String) : Option String :=
  match v with
  | none => none
  | some s =>
    if s = "" then some s
    else some (String.mk (SafaricomPhoneField.to_python_l s.toList))

/-- Body of `SafaricomPhoneField.get_prep_value` on a non-empty string —
textually the same branches as `to_python`. -/
def SafaricomPhoneField.get_prep_value_l (cs : List Char) : List Char :=
  if ['+', '2', '5', '4'] <+: cs then ['2', '5', '4'] ++ cs.drop 4
  else if ['0'] <+: cs then ['2', '5', '4'] ++ cs.drop 1
  else if ¬ ['2', '5', '4'] <+: cs then ['2', '5', '4'] ++ cs
  else cs

/-- `SafaricomPhoneField.get_prep_value(value)`. -/
def SafaricomPhoneField.get_prep_value (v : Option String) : Option String :=
  match v with
  | none => none
  | some s =>
    if s = "" then some s
    else some (String.mk (SafaricomPhoneField.get_prep_value_l s.toList))

/-- Body of `AirtelPhoneField.to_python` on a non-empty string. -/
def AirtelPhoneField.to_python_l (cs : List Char) : List Char :=
  if ['+', '2', '5', '4'] <+: cs then ['2', '5', '4'] ++ cs.drop 4
  else if ['0'] <+: cs then ['2', '5', '4'] ++ cs.drop 1
  else if ¬ ['2', '5', '4'] <+: cs then ['2', '5', '4'] ++ cs
  else cs

/-- `AirtelPhoneField.to_python(value)`. -/
def AirtelPhoneField.to_python (v : Option String) : Option String :=
  match v with
  | none => none
  | some s =>
    if s = "" then some s
    else some (String.mk (AirtelPhoneField.to_python_l s.toList))

/-- Body of `AirtelPhoneField.get_prep_value` on a non-empty string. -/
def AirtelPhoneField.get_prep_value_l (cs : List Char) : List Char :=
  if ['+', '2', '5', '4'] <+: cs then ['2', '5', '4'] ++ cs.drop 4
  else if ['0'] <+: cs then ['2', '5', '4'] ++ cs.drop 1
  else if ¬ ['2', '5', '4'] <+: cs then ['2', '5', '4'] ++ cs
  else cs

/-- `AirtelPhoneField.get_prep_value(value)`. -/
def AirtelPhoneField.get_prep_value (v : Option String) : Option String :=
  match v with
  | none => none
  | some s =>
    if s = "" then some s
    else some (String.mk (AirtelPhoneField.get_prep_value_l s.toList))

/-- Body of `KenyanPhoneField.to_python` on a non-empty string: remove any
single leading `+`; then if the result starts with `254` return it
unchanged, else if it starts with `0` replace the `0` by `254`, else
forcibly prepend `254`. -/
def KenyanPhoneField.to_python_l (cs : List Char) : List Char :=
  let cs2 := if ['+'] <+: cs then cs.drop 1 else cs
  if ['2', '5', '4'] <+: cs2 then cs2
  else if ['0'] <+: cs2 then ['2', '5', '4'] ++ cs2.drop 1
  else ['2', '5', '4'] ++ cs2

/-- `KenyanPhoneField.to_python(value)`. -/
def KenyanPhoneField.to_python (v : Option String) : Option String :=
  match v with
  | none => none
  | some s =>
    if s = "" then some s
    else some (String.mk (KenyanPhoneField.to_python_l s.toList))

/-- Body of `KenyanPhoneField.get_prep_value` on a non-empty string — the
carrier-field pattern again: it strips `+254` specifically, not a bare `+`. -/
def KenyanPhoneField.get_prep_value_l (cs : List Char) : List Char :=
  if ['+', '2', '5', '4'] <+: cs then ['2', '5', '4'] ++ cs.drop 4
  else if ['0'] <+: cs then ['2', '5', '4'] ++ cs.drop 1
  else if ¬ ['2', '5', '4'] <+: cs then ['2', '5', '4'] ++ cs
  else cs

/-- `KenyanPhoneField.get_prep_value(value)`. -/
def KenyanPhoneField.get_prep_value (v : Option String) : Option String :=
  match v with
  | none => none
  | some s =>
    if s = "" then some s
    else some (String.mk (KenyanPhoneField.get_prep_value_l s.toList))

/-! ## Spec-side definitions (used to compare the code against the
specification's words) -/

/-- Spec model of the §4.3 to-logical normalizer, stated from the
specification's words for the refinement comparison of the two directions:
"strip one leading `+` if present; if already starts with `254`, return
unchanged; else if starts with `0`, replace leading `0` with `254`; else
prepend `254` unconditionally". -/
def specGenericToLogical (cs : List Char) : List Char :=
  let cs2 := if ['+'] <+: cs then cs.drop 1 else cs
  if ['2', '5', '4'] <+: cs2 then cs2
  else if ['0'] <+: cs2 then ['2', '5', '4'] ++ cs2.drop 1
  else ['2', '5', '4'] ++ cs2

/-- Spec model of the §4.3 to-storage normalizer, stated from the
specification's words: "strips `+254` specifically (not just `+`) before
falling through the same branches" — i.e. the §4.2 carrier pattern. -/
def specGenericToStorage (cs : List Char) : List Char :=
  if ['+', '2', '5', '4'] <+: cs then ['2', '5', '4'] ++ cs.drop 4
  else if ['0'] <+: cs then ['2', '5', '4'] ++ cs.drop 1
  else if ¬ ['2', '5', '4'] <+: cs then ['2', '5', '4'] ++ cs
  else cs

/-- The "stripped value" used by the carrier validators per the spec (§4.1):
remove exactly one of the leading markers `+254`, `254`, `0`, checked in that
priority order, leaving the value unchanged when none applies. -/
def stripCountryCode (cs : List Char) : List Char :=
  if ['+', '2', '5', '4'] <+: cs then cs.drop 4
  else if ['2', '5', '4'] <+: cs then cs.drop 3
  else if ['0'] <+: cs then cs.drop 1
  else cs

/-- The language actually accepted by `KENYAN_MOBILE_REGEX` under Python
`re.match` semantics, stated declaratively: a marker `+254`, `254` or `0`,
then `7` or `1` followed by exactly 8 Unicode decimal digits (category Nd,
Python's `\d`), optionally followed by
one final newline (which Python's `$` tolerates). -/
def kenyanAcceptedShape (cs : List Char) : Prop :=
  ∃ pre body nl : List Char,
    (pre = ['+', '2', '5', '4'] ∨ pre = ['2', '5', '4'] ∨ pre = ['0'])
    ∧ (∃ (hd : Char) (ds : List Char), (hd = '7' ∨ hd = '1') ∧ ds.length = 8
        ∧ ds.all isPyDigit = true ∧ body = hd :: ds)
    ∧ (nl = [] ∨ nl = ['\n'])
    ∧ cs = pre ++ (body ++ nl)

example : validate_safaricom_number (some ("0712345678")) = VResult.ok := by decide
example : validate_safaricom_number (some ("0612345678")) = VResult.invalidPrefix := by decide
example : validate_safaricom_number (some ("071234567")) = VResult.invalidLength := by decide
example : validate_airtel_number (some ("+254733123456")) = VResult.ok := by decide
example : validate_kenyan_number (some ("0112345678")) = VResult.ok := by decide
example : validate_kenyan_number (some ("0212345678")) = VResult.invalidFormat := by decide
example : validate_kenyan_number (some ("+0712345678")) = VResult.invalidFormat := by decide
example : validate_kenyan_number (some ("0712345678\n")) = VResult.ok := by decide
example : KenyanPhoneField.to_python (some ("+0712345678")) = some ("254712345678") := by decide
example : KenyanPhoneField.get_prep_value (some ("+0712345678")) = some ("254+0712345678") := by decide
example : SafaricomPhoneField.to_python (some ("9999999")) = some ("2549999999") := by decide
example : validate_kenyan_number (some ("07123")) = VResult.invalidFormat := by decide
example : validate_kenyan_number (some ("071234567890")) = VResult.invalidFormat := by decide
example : validate_kenyan_number (some ("0712345678\n\n")) = VResult.invalidFormat := by decide
example : validate_kenyan_number (some ("07٥٥٥٥٥٥٥٥")) = VResult.ok := by decide
example : validate_kenyan_number (some ("07٥٥٥٥٥٥٥٥\n")) = VResult.ok := by decide
example : validate_kenyan_number (some ("+254٧12345678")) = VResult.invalidFormat := by decide

/-! ## Helper lemmas -/

theorem mk_cons_ne_empty (c : Char) (cs : List Char) : String.mk (c :: cs) ≠ "" := by
  intro h
  simpa using congrArg String.data h

theorem validate_saf_mk (c : Char) (cs : List Char) :
    validate_safaricom_number (some (String.mk (c :: cs))) =
      validate_safaricom_number_l (c :: cs) := by
  show (if String.mk (c :: cs) = "" then VResult.ok
        else validate_safaricom_number_l (String.mk (c :: cs)).toList) = _
  rw [if_neg (mk_cons_ne_empty c cs)]
  rfl

theorem validate_air_mk (c : Char) (cs : List Char) :
    validate_airtel_number (some (String.mk (c :: cs))) =
      validate_airtel_number_l (c :: cs) := by
  show (if String.mk (c :: cs) = "" then VResult.ok
        else validate_airtel_number_l (String.mk (c :: cs)).toList) = _
  rw [if_neg (mk_cons_ne_empty c cs)]
  rfl

theorem validate_ken_mk (c : Char) (cs : List Char) :
    validate_kenyan_number (some (String.mk (c :: cs))) =
      (if KENYAN_MOBILE_REGEX_match (c :: cs) then VResult.ok
       else VResult.invalidFormat) := by
  show (if String.mk (c :: cs) = "" then VResult.ok
        else if KENYAN_MOBILE_REGEX_match (String.mk (c :: cs)).toList then VResult.ok
        else VResult.invalidFormat) = _
  rw [if_neg (mk_cons_ne_empty c cs)]
  rfl

theorem saf_to_python_mk (c : Char) (cs : List Char) :
    SafaricomPhoneField.to_python (some (String.mk (c :: cs))) =
      some (String.mk (SafaricomPhoneField.to_python_l (c :: cs))) := by
  show (if String.mk (c :: cs) = "" then some (String.mk (c :: cs))
        else some (String.mk (SafaricomPhoneField.to_python_l (String.mk (c :: cs)).toList))) = _
  rw [if_neg (mk_cons_ne_empty c cs)]
  rfl

theorem air_to_python_mk (c : Char) (cs : List Char) :
    AirtelPhoneField.to_python (some (String.mk (c :: cs))) =
      some (String.mk (AirtelPhoneField.to_python_l (c :: cs))) := by
  show (if String.mk (c :: cs) = "" then some (String.mk (c :: cs))
        else some (String.mk (AirtelPhoneField.to_python_l (String.mk (c :: cs)).toList))) = _
  rw [if_neg (mk_cons_ne_empty c cs)]
  rfl

theorem ken_to_python_mk (c : Char) (cs : List Char) :
    KenyanPhoneField.to_python (some (String.mk (c :: cs))) =
      some (String.mk (KenyanPhoneField.to_python_l (c :: cs))) := by
  show (if String.mk (c :: cs) = "" then some (String.mk (c :: cs))
        else some (String.mk (KenyanPhoneField.to_python_l (String.mk (c :: cs)).toList))) = _
  rw [if_neg (mk_cons_ne_empty c cs)]
  rfl

theorem saf_to_python_l_fixed (t : List Char) :
    SafaricomPhoneField.to_python_l ('2' :: '5' :: '4' :: t) = '2' :: '5' :: '4' :: t := by
  simp [SafaricomPhoneField.to_python_l, List.cons_prefix_cons]

theorem air_to_python_l_fixed (t : List Char) :
    AirtelPhoneField.to_python_l ('2' :: '5' :: '4' :: t) = '2' :: '5' :: '4' :: t :=
  saf_to_python_l_fixed t

theorem saf_to_python_l_starts (c : Char) (cs : List Char) :
    ∃ t : List Char, SafaricomPhoneField.to_python_l (c :: cs) = '2' :: '5' :: '4' :: t := by
  unfold SafaricomPhoneField.to_python_l
  split
  case isTrue h => exact ⟨_, rfl⟩
  case isFalse h =>
    split
    case isTrue h2 => exact ⟨_, rfl⟩
    case isFalse h2 =>
      split
      case isTrue h3 => exact ⟨_, rfl⟩
      case isFalse h3 =>
        push_neg at h3
        obtain ⟨t, ht⟩ := h3
        exact ⟨t, ht.symm⟩

theorem air_to_python_l_starts (c : Char) (cs : List Char) :
    ∃ t : List Char, AirtelPhoneField.to_python_l (c :: cs) = '2' :: '5' :: '4' :: t :=
  saf_to_python_l_starts c cs

theorem validate_saf_l_eq (cs : List Char) :
    validate_safaricom_number_l cs =
      (if ¬ ∃ p ∈ safaricom_prefixes, p.toList.drop 1 <+: stripCountryCode cs then
        VResult.invalidPrefix
      else if (stripCountryCode cs).length ≠ 9 then VResult.invalidLength
      else VResult.ok) := rfl

theorem validate_air_l_eq (cs : List Char) :
    validate_airtel_number_l cs =
      (if ¬ ∃ p ∈ airtel_prefixes, p.toList.drop 1 <+: stripCountryCode cs then
        VResult.invalidPrefix
      else if (stripCountryCode cs).length ≠ 9 then VResult.invalidLength
      else VResult.ok) := rfl

theorem saf_table_drop_eq :
    ∀ p ∈ safaricom_prefixes, p.toList.drop 1 = p.toList.drop (p.toList.length - 3) := by
  decide

theorem air_table_drop_eq :
    ∀ p ∈ airtel_prefixes, p.toList.drop 1 = p.toList.drop (p.toList.length - 3) := by
  decide

theorem saf_exists_drop_iff (n : List Char) :
    (∃ p ∈ safaricom_prefixes, p.toList.drop 1 <+: n) ↔
      ∃ p ∈ safaricom_prefixes, p.toList.drop (p.toList.length - 3) <+: n := by
  constructor
  · rintro ⟨p, hp, h⟩
    rw [saf_table_drop_eq p hp] at h
    exact ⟨p, hp, h⟩
  · rintro ⟨p, hp, h⟩
    rw [← saf_table_drop_eq p hp] at h
    exact ⟨p, hp, h⟩

theorem air_exists_drop_iff (n : List Char) :
    (∃ p ∈ airtel_prefixes, p.toList.drop 1 <+: n) ↔
      ∃ p ∈ airtel_prefixes, p.toList.drop (p.toList.length - 3) <+: n := by
  constructor
  · rintro ⟨p, hp, h⟩
    rw [air_table_drop_eq p hp] at h
    exact ⟨p, hp, h⟩
  · rintro ⟨p, hp, h⟩
    rw [← air_table_drop_eq p hp] at h
    exact ⟨p, hp, h⟩

theorem saf_to_python_some (s : String) (hs : s ≠ "") :
    SafaricomPhoneField.to_python (some s) =
      some (String.mk (SafaricomPhoneField.to_python_l s.toList)) := by
  show (if s = "" then some s
        else some (String.mk (SafaricomPhoneField.to_python_l s.toList))) = _
  rw [if_neg hs]

theorem saf_get_prep_some (s : String) (hs : s ≠ "") :
    SafaricomPhoneField.get_prep_value (some s) =
      some (String.mk (SafaricomPhoneField.get_prep_value_l s.toList)) := by
  show (if s = "" then some s
        else some (String.mk (SafaricomPhoneField.get_prep_value_l s.toList))) = _
  rw [if_neg hs]

theorem air_to_python_some (s : String) (hs : s ≠ "") :
    AirtelPhoneField.to_python (some s) =
      some (String.mk (AirtelPhoneField.to_python_l s.toList)) := by
  show (if s = "" then some s
        else some (String.mk (AirtelPhoneField.to_python_l s.toList))) = _
  rw [if_neg hs]

theorem air_get_prep_some (s : String) (hs : s ≠ "") :
    AirtelPhoneField.get_prep_value (some s) =
      some (String.mk (AirtelPhoneField.get_prep_value_l s.toList)) := by
  show (if s = "" then some s
        else some (String.mk (AirtelPhoneField.get_prep_value_l s.toList))) = _
  rw [if_neg hs]

theorem ken_to_python_some (s : String) (hs : s ≠ "") :
    KenyanPhoneField.to_python (some s) =
      some (String.mk (KenyanPhoneField.to_python_l s.toList)) := by
  show (if s = "" then some s
        else some (String.mk (KenyanPhoneField.to_python_l s.toList))) = _
  rw [if_neg hs]

theorem ken_get_prep_some (s : String) (hs : s ≠ "") :
    KenyanPhoneField.get_prep_value (some s) =
      some (String.mk (KenyanPhoneField.get_prep_value_l s.toList)) := by
  show (if s = "" then some s
        else some (String.mk (KenyanPhoneField.get_prep_value_l s.toList))) = _
  rw [if_neg hs]

theorem empty_of_toList_nil (s : String) (h : s.toList = []) : s = "" := by
  cases s with
  | mk data =>
    have hd : data = [] := h
    subst hd
    rfl

theorem toList_cons_of_ne (s : String) (hs : s ≠ "") :
    ∃ c cs, s.toList = c :: cs := by
  cases h : s.toList with
  | nil => exact absurd (empty_of_toList_nil s h) hs
  | cons c cs => exact ⟨c, cs, rfl⟩

theorem saf_to_python_l_branches (cs : List Char) :
    SafaricomPhoneField.to_python_l cs =
      (if ['+', '2', '5', '4'] <+: cs then ['2', '5', '4'] ++ cs.drop 4
       else if ['0'] <+: cs then ['2', '5', '4'] ++ cs.drop 1
       else if ['2', '5', '4'] <+: cs then cs
       else ['2', '5', '4'] ++ cs) := by
  unfold SafaricomPhoneField.to_python_l
  by_cases h1 : ['+', '2', '5', '4'] <+: cs <;> by_cases h2 : ['0'] <+: cs <;>
    by_cases h3 : ['2', '5', '4'] <+: cs <;> simp [h1, h2, h3]

theorem air_to_python_l_branches (cs : List Char) :
    AirtelPhoneField.to_python_l cs =
      (if ['+', '2', '5', '4'] <+: cs then ['2', '5', '4'] ++ cs.drop 4
       else if ['0'] <+: cs then ['2', '5', '4'] ++ cs.drop 1
       else if ['2', '5', '4'] <+: cs then cs
       else ['2', '5', '4'] ++ cs) :=
  saf_to_python_l_branches cs

/-! ## Claim theorems -/

/-- C2: for the generic Kenyan field the to-logical normalizer (`to_python`)
and the to-storage normalizer (`get_prep_value`) are different functions: the
to-logical direction strips any single leading `+` before the common
branches (it equals the spec's §4.3 to-logical description pointwise), while
the to-storage direction strips only the specific marker `+254` (it equals
the spec's to-storage description pointwise); hence some non-empty input
starting with `+` but not with `+254` is mapped to different output strings
by the two directions — concretely `"+0712345678"`. -/
theorem generic_normalizer_directions_differ :
    (∀ cs : List Char, KenyanPhoneField.to_python_l cs = specGenericToLogical cs)
    ∧ (∀ cs : List Char, KenyanPhoneField.get_prep_value_l cs = specGenericToStorage cs)
    ∧ (∃ s : String, s ≠ "" ∧ ['+'] <+: s.toList ∧ ¬ ['+', '2', '5', '4'] <+: s.toList ∧
        KenyanPhoneField.to_python (some s) ≠ KenyanPhoneField.get_prep_value (some s))
    ∧ KenyanPhoneField.to_python (some ("+0712345678")) = some ("254712345678")
    ∧ KenyanPhoneField.get_prep_value (some ("+0712345678")) = some ("254+0712345678") := by
  refine ⟨fun cs => rfl, fun cs => rfl, ⟨"+0712345678", ?_, ?_, ?_, ?_⟩, ?_, ?_⟩
  · decide
  · decide
  · decide
  · decide
  · decide
  · decide

/-- C5: on every non-empty string the Safaricom and Airtel `to_python`
normalizers return: `254` plus the input minus its first 4 characters when
the input starts with `+254`; else `254` plus the input minus its first
character when it starts with `0`; else the input unchanged when it starts
with `254`; else `254` prepended to the whole input.  In particular
`"0712345678"` maps to `"254712345678"` and `"9999999"` to `"2549999999"`. -/
theorem carrier_to_python_branch_form (c : Char) (cs : List Char) :
    SafaricomPhoneField.to_python (some (String.mk (c :: cs))) =
      some (String.mk
        (if ['+', '2', '5', '4'] <+: (c :: cs) then ['2', '5', '4'] ++ (c :: cs).drop 4
         else if ['0'] <+: (c :: cs) then ['2', '5', '4'] ++ (c :: cs).drop 1
         else if ['2', '5', '4'] <+: (c :: cs) then c :: cs
         else ['2', '5', '4'] ++ (c :: cs)))
    ∧ AirtelPhoneField.to_python (some (String.mk (c :: cs))) =
      some (String.mk
        (if ['+', '2', '5', '4'] <+: (c :: cs) then ['2', '5', '4'] ++ (c :: cs).drop 4
         else if ['0'] <+: (c :: cs) then ['2', '5', '4'] ++ (c :: cs).drop 1
         else if ['2', '5', '4'] <+: (c :: cs) then c :: cs
         else ['2', '5', '4'] ++ (c :: cs)))
    ∧ SafaricomPhoneField.to_python (some ("0712345678")) = some ("254712345678")
    ∧ AirtelPhoneField.to_python (some ("0712345678")) = some ("254712345678")
    ∧ SafaricomPhoneField.to_python (some ("9999999")) = some ("2549999999")
    ∧ AirtelPhoneField.to_python (some ("9999999")) = some ("2549999999") := by
  refine ⟨?_, ?_, by decide, by decide, by decide, by decide⟩
  · rw [saf_to_python_mk, saf_to_python_l_branches]
  · rw [air_to_python_mk, air_to_python_l_branches]

/-- C6: for the Safaricom and Airtel fields, `to_python` and
`get_prep_value` compute the same function on every value, and this common
normalization fixes the already-canonical value `"254712345678"`, so a
logical-to-storage-to-logical round trip leaves canonical values
unchanged. -/
theorem carrier_two_directions_agree :
    (∀ v : Option String,
        SafaricomPhoneField.to_python v = SafaricomPhoneField.get_prep_value v)
    ∧ (∀ v : Option String,
        AirtelPhoneField.to_python v = AirtelPhoneField.get_prep_value v)
    ∧ SafaricomPhoneField.to_python (some ("254712345678")) = some ("254712345678")
    ∧ AirtelPhoneField.to_python (some ("254712345678")) = some ("254712345678")
    ∧ SafaricomPhoneField.to_python
        (SafaricomPhoneField.get_prep_value (some ("254712345678"))) =
        some ("254712345678")
    ∧ AirtelPhoneField.to_python
        (AirtelPhoneField.get_prep_value (some ("254712345678"))) =
        some ("254712345678") := by
  refine ⟨fun v => rfl, fun v => rfl, by decide, by decide, by decide, by decide⟩

/-- C7: every empty or absent input — Python `None` or the empty string —
passes all three validators without an error. -/
theorem validators_accept_blank :
    validate_safaricom_number none = VResult.ok
    ∧ validate_safaricom_number (some ("")) = VResult.ok
    ∧ validate_airtel_number none = VResult.ok
    ∧ validate_airtel_number (some ("")) = VResult.ok
    ∧ validate_kenyan_number none = VResult.ok
    ∧ validate_kenyan_number (some ("")) = VResult.ok := by
  refine ⟨rfl, by decide, rfl, by decide, rfl, by decide⟩

/-- C8: every normalizer (`to_python` and `get_prep_value` of all three
field types) is total on strings: it returns some string for every string
input, signalling no failure — there is no error case in any normalizer,
errors exist only in the validators' result type.  In particular the
unrecognized-marker input `"9999999"` normalizes to `"2549999999"` instead
of failing. -/
theorem normalizers_total :
    (∀ s : String, ∃ t : String, SafaricomPhoneField.to_python (some s) = some t)
    ∧ (∀ s : String, ∃ t : String, SafaricomPhoneField.get_prep_value (some s) = some t)
    ∧ (∀ s : String, ∃ t : String, AirtelPhoneField.to_python (some s) = some t)
    ∧ (∀ s : String, ∃ t : String, AirtelPhoneField.get_prep_value (some s) = some t)
    ∧ (∀ s : String, ∃ t : String, KenyanPhoneField.to_python (some s) = some t)
    ∧ (∀ s : String, ∃ t : String, KenyanPhoneField.get_prep_value (some s) = some t)
    ∧ SafaricomPhoneField.to_python (some ("9999999")) = some ("2549999999")
    ∧ KenyanPhoneField.to_python (some ("9999999")) = some ("2549999999") := by
  refine ⟨?_, ?_, ?_, ?_, ?_, ?_, by decide, by decide⟩
  · intro s
    by_cases hs : s = ""
    · exact ⟨s, by rw [hs]; decide⟩
    · exact ⟨_, saf_to_python_some s hs⟩
  · intro s
    by_cases hs : s = ""
    · exact ⟨s, by rw [hs]; decide⟩
    · exact ⟨_, saf_get_prep_some s hs⟩
  · intro s
    by_cases hs : s = ""
    · exact ⟨s, by rw [hs]; decide⟩
    · exact ⟨_, air_to_python_some s hs⟩
  · intro s
    by_cases hs : s = ""
    · exact ⟨s, by rw [hs]; decide⟩
    · exact ⟨_, air_get_prep_some s hs⟩
  · intro s
    by_cases hs : s = ""
    · exact ⟨s, by rw [hs]; decide⟩
    · exact ⟨_, ken_to_python_some s hs⟩
  · intro s
    by_cases hs : s = ""
    · exact ⟨s, by rw [hs]; decide⟩
    · exact ⟨_, ken_get_prep_some s hs⟩

/-- C9: on every non-empty string the Safaricom/Airtel normalizer produces
a string starting with `254`, and consequently the normalizer is idempotent
on all values: applying it twice gives the same result as applying it
once. -/
theorem carrier_normalizer_starts_254_idempotent :
    (∀ (c : Char) (cs : List Char), ∃ t : String,
        SafaricomPhoneField.to_python (some (String.mk (c :: cs))) = some t
        ∧ ['2', '5', '4'] <+: t.toList)
    ∧ (∀ (c : Char) (cs : List Char), ∃ t : String,
        AirtelPhoneField.to_python (some (String.mk (c :: cs))) = some t
        ∧ ['2', '5', '4'] <+: t.toList)
    ∧ (∀ v : Option String,
        SafaricomPhoneField.to_python (SafaricomPhoneField.to_python v) =
          SafaricomPhoneField.to_python v)
    ∧ (∀ v : Option String,
        AirtelPhoneField.to_python (AirtelPhoneField.to_python v) =
          AirtelPhoneField.to_python v) := by
  refine ⟨?_, ?_, ?_, ?_⟩
  · intro c cs
    obtain ⟨t0, ht⟩ := saf_to_python_l_starts c cs
    refine ⟨String.mk ('2' :: '5' :: '4' :: t0), ?_, ⟨t0, rfl⟩⟩
    rw [saf_to_python_mk, ht]
  · intro c cs
    obtain ⟨t0, ht⟩ := air_to_python_l_starts c cs
    refine ⟨String.mk ('2' :: '5' :: '4' :: t0), ?_, ⟨t0, rfl⟩⟩
    rw [air_to_python_mk, ht]
  · intro v
    match v with
    | none => rfl
    | some s =>
      by_cases hs : s = ""
      · rw [hs]; decide
      · obtain ⟨c, cs, hcs⟩ := toList_cons_of_ne s hs
        rw [saf_to_python_some s hs, hcs]
        obtain ⟨t0, ht⟩ := saf_to_python_l_starts c cs
        rw [ht, saf_to_python_mk, saf_to_python_l_fixed]
  · intro v
    match v with
    | none => rfl
    | some s =>
      by_cases hs : s = ""
      · rw [hs]; decide
      · obtain ⟨c, cs, hcs⟩ := toList_cons_of_ne s hs
        rw [air_to_python_some s hs, hcs]
        obtain ⟨t0, ht⟩ := air_to_python_l_starts c cs
        rw [ht, air_to_python_mk, air_to_python_l_fixed]

/-- C3: on every non-empty string both carrier validators strip exactly one
of the markers `+254` / `254` / `0` (in that priority order, leaving the
value unchanged when none applies — `stripCountryCode`) and raise the
"not a valid carrier prefix" error exactly when the stripped value does not
start with any table entry minus its leading character, equivalently minus
everything but its last 3 characters; every table entry is a 4-character
string beginning with `0`. -/
theorem carrier_validator_table_match (c : Char) (cs : List Char) :
    (validate_safaricom_number (some (String.mk (c :: cs))) = VResult.invalidPrefix ↔
      ¬ ∃ p ∈ safaricom_prefixes,
        p.toList.drop (p.toList.length - 3) <+: stripCountryCode (c :: cs))
    ∧ (validate_airtel_number (some (String.mk (c :: cs))) = VResult.invalidPrefix ↔
      ¬ ∃ p ∈ airtel_prefixes,
        p.toList.drop (p.toList.length - 3) <+: stripCountryCode (c :: cs))
    ∧ safaricom_prefixes.all
        (fun p => (p.toList.length == 4) && (p.toList.take 1 == ['0'])) = true
    ∧ airtel_prefixes.all
        (fun p => (p.toList.length == 4) && (p.toList.take 1 == ['0'])) = true := by
  refine ⟨?_, ?_, by decide, by decide⟩
  · rw [validate_saf_mk, validate_saf_l_eq, ← saf_exists_drop_iff]
    by_cases h : ∃ p ∈ safaricom_prefixes, p.toList.drop 1 <+: stripCountryCode (c :: cs)
    · rw [if_neg (not_not_intro h)]
      constructor
      · intro hcontra
        split at hcontra <;> simp_all
      · intro hcontra
        exact absurd h hcontra
    · rw [if_pos h]
      exact iff_of_true rfl h
  · rw [validate_air_mk, validate_air_l_eq, ← air_exists_drop_iff]
    by_cases h : ∃ p ∈ airtel_prefixes, p.toList.drop 1 <+: stripCountryCode (c :: cs)
    · rw [if_neg (not_not_intro h)]
      constructor
      · intro hcontra
        split at hcontra <;> simp_all
      · intro hcontra
        exact absurd h hcontra
    · rw [if_pos h]
      exact iff_of_true rfl h

/-- C4: on every non-empty string the carrier validators raise the
"must be 9 digits long after removing country code" error exactly when the
table-entry check on the stripped value passes AND the stripped value's
length differs from 9 — so the length error presupposes a passed prefix
check, a failing prefix check raising first. -/
theorem carrier_validator_length_error (c : Char) (cs : List Char) :
    (validate_safaricom_number (some (String.mk (c :: cs))) = VResult.invalidLength ↔
      (∃ p ∈ safaricom_prefixes, p.toList.drop 1 <+: stripCountryCode (c :: cs))
        ∧ (stripCountryCode (c :: cs)).length ≠ 9)
    ∧ (validate_airtel_number (some (String.mk (c :: cs))) = VResult.invalidLength ↔
      (∃ p ∈ airtel_prefixes, p.toList.drop 1 <+: stripCountryCode (c :: cs))
        ∧ (stripCountryCode (c :: cs)).length ≠ 9) := by
  constructor
  · rw [validate_saf_mk, validate_saf_l_eq]
    by_cases h : ∃ p ∈ safaricom_prefixes, p.toList.drop 1 <+: stripCountryCode (c :: cs)
    · rw [if_neg (not_not_intro h)]
      by_cases h9 : (stripCountryCode (c :: cs)).length = 9
      · rw [if_neg (not_not_intro h9)]
        exact iff_of_false (by decide) (fun hx => hx.2 h9)
      · rw [if_pos h9]
        exact iff_of_true rfl ⟨h, h9⟩
    · rw [if_pos h]
      exact iff_of_false (by decide) (fun hx => h hx.1)
  · rw [validate_air_mk, validate_air_l_eq]
    by_cases h : ∃ p ∈ airtel_prefixes, p.toList.drop 1 <+: stripCountryCode (c :: cs)
    · rw [if_neg (not_not_intro h)]
      by_cases h9 : (stripCountryCode (c :: cs)).length = 9
      · rw [if_neg (not_not_intro h9)]
        exact iff_of_false (by decide) (fun hx => hx.2 h9)
      · rw [if_pos h9]
        exact iff_of_true rfl ⟨h, h9⟩
    · rw [if_pos h]
      exact iff_of_false (by decide) (fun hx => h hx.1)

theorem kenyanGroupEnd_iff (cs : List Char) :
    kenyanGroupEnd cs = true ↔
      ∃ (hd : Char) (ds nl : List Char), (hd = '7' ∨ hd = '1') ∧ ds.length = 8
        ∧ ds.all isPyDigit = true ∧ (nl = [] ∨ nl = ['\n'])
        ∧ cs = hd :: (ds ++ nl) := by
  unfold kenyanGroupEnd
  by_cases hor : ['7'] <+: cs ∨ ['1'] <+: cs
  · rw [if_pos hor]
    have hcons : ∃ (hd : Char) (t : List Char), (hd = '7' ∨ hd = '1') ∧ cs = hd :: t := by
      rcases hor with ⟨t, ht⟩ | ⟨t, ht⟩
      · exact ⟨'7', t, Or.inl rfl, ht.symm⟩
      · exact ⟨'1', t, Or.inr rfl, ht.symm⟩
    obtain ⟨hd, t, hhd, rfl⟩ := hcons
    simp only [List.drop_one, List.tail_cons]
    constructor
    · intro hb
      simp only [Bool.and_eq_true, Bool.or_eq_true, decide_eq_true_eq] at hb
      obtain ⟨hdig, hlen⟩ := hb
      refine ⟨hd, t.take 8, t.drop 8, hhd, ?_, hdig, ?_, ?_⟩
      · rcases hlen with h8 | ⟨h9, -⟩
        · simp [List.length_take, h8]
        · simp [List.length_take, h9]
      · rcases hlen with h8 | ⟨h9, hnl⟩
        · exact Or.inl (List.drop_eq_nil_of_le (by omega))
        · exact Or.inr hnl
      · rw [List.take_append_drop]
    · rintro ⟨hd', ds, nl, hhd', hds, hdig, hnl, hteq⟩
      injection hteq with hhd2 ht2
      subst ht2
      simp only [Bool.and_eq_true, Bool.or_eq_true, decide_eq_true_eq]
      constructor
      · rw [List.take_left' hds]
        exact hdig
      · rcases hnl with rfl | rfl
        · left
          simp [hds]
        · right
          constructor
          · simp [hds]
          · rw [List.drop_left' hds]
  · rw [if_neg hor]
    refine iff_of_false (by simp) ?_
    rintro ⟨hd, ds, nl, hhd, -, -, -, rfl⟩
    rcases hhd with rfl | rfl
    · exact hor (Or.inl ⟨ds ++ nl, rfl⟩)
    · exact hor (Or.inr ⟨ds ++ nl, rfl⟩)

theorem KENYAN_MOBILE_REGEX_match_iff (cs : List Char) :
    KENYAN_MOBILE_REGEX_match cs = true ↔ kenyanAcceptedShape cs := by
  unfold KENYAN_MOBILE_REGEX_match kenyanAcceptedShape
  by_cases h1 : ['+', '2', '5', '4'] <+: cs
  · rw [if_pos h1]
    obtain ⟨t, rfl⟩ := h1
    rw [show ((['+', '2', '5', '4'] ++ t).drop 4) = t from rfl, kenyanGroupEnd_iff]
    constructor
    · rintro ⟨hd, ds, nl, hhd, hds, hdig, hnl, rfl⟩
      exact ⟨['+', '2', '5', '4'], hd :: ds, nl, Or.inl rfl,
        ⟨hd, ds, hhd, hds, hdig, rfl⟩, hnl, by simp⟩
    · rintro ⟨pre, body, nl, hpre, ⟨hd, ds, hhd, hds, hdig, rfl⟩, hnl, hcs⟩
      rcases hpre with rfl | rfl | rfl
      · have ht : t = hd :: (ds ++ nl) := by simpa using hcs
        exact ⟨hd, ds, nl, hhd, hds, hdig, hnl, ht⟩
      · simp at hcs
      · simp at hcs
  · rw [if_neg h1]
    by_cases h2 : ['2', '5', '4'] <+: cs
    · rw [if_pos h2]
      obtain ⟨t, rfl⟩ := h2
      rw [show ((['2', '5', '4'] ++ t).drop 3) = t from rfl, kenyanGroupEnd_iff]
      constructor
      · rintro ⟨hd, ds, nl, hhd, hds, hdig, hnl, rfl⟩
        exact ⟨['2', '5', '4'], hd :: ds, nl, Or.inr (Or.inl rfl),
          ⟨hd, ds, hhd, hds, hdig, rfl⟩, hnl, by simp⟩
      · rintro ⟨pre, body, nl, hpre, ⟨hd, ds, hhd, hds, hdig, rfl⟩, hnl, hcs⟩
        rcases hpre with rfl | rfl | rfl
        · exact absurd ⟨(hd :: ds) ++ nl, hcs.symm⟩ h1
        · have ht : t = hd :: (ds ++ nl) := by simpa using hcs
          exact ⟨hd, ds, nl, hhd, hds, hdig, hnl, ht⟩
        · simp at hcs
    · rw [if_neg h2]
      by_cases h3 : ['0'] <+: cs
      · rw [if_pos h3]
        obtain ⟨t, rfl⟩ := h3
        rw [show ((['0'] ++ t).drop 1) = t from rfl, kenyanGroupEnd_iff]
        constructor
        · rintro ⟨hd, ds, nl, hhd, hds, hdig, hnl, rfl⟩
          exact ⟨['0'], hd :: ds, nl, Or.inr (Or.inr rfl),
            ⟨hd, ds, hhd, hds, hdig, rfl⟩, hnl, by simp⟩
        · rintro ⟨pre, body, nl, hpre, ⟨hd, ds, hhd, hds, hdig, rfl⟩, hnl, hcs⟩
          rcases hpre with rfl | rfl | rfl
          · exact absurd ⟨(hd :: ds) ++ nl, hcs.symm⟩ h1
          · exact absurd ⟨(hd :: ds) ++ nl, hcs.symm⟩ h2
          · have ht : t = hd :: (ds ++ nl) := by simpa using hcs
            exact ⟨hd, ds, nl, hhd, hds, hdig, hnl, ht⟩
      · rw [if_neg h3]
        refine iff_of_false (by simp) ?_
        rintro ⟨pre, body, nl, hpre, ⟨hd, ds, hhd, hds, hdig, rfl⟩, hnl, rfl⟩
        rcases hpre with rfl | rfl | rfl
        · exact h1 ⟨(hd :: ds) ++ nl, rfl⟩
        · exact h2 ⟨(hd :: ds) ++ nl, rfl⟩
        · exact h3 ⟨(hd :: ds) ++ nl, rfl⟩

/-- C1 (amended): on every non-empty string the generic Kenyan validator
succeeds exactly when the string is `+254`, `254` or `0`, then `7` or `1`
followed by exactly 8 Unicode decimal digits (category Nd — so e.g. 8
Arabic-Indic digits are also accepted), optionally followed by one final newline
(Python's `$` also matches just before a terminal newline); every other
non-empty string is rejected with the format-mismatch error (the only error
this validator raises).  The optional `+` belongs to the `254` alternative
only, so `"+0712345678"` is rejected; `"0112345678"` and `"0712345678"` are
accepted and `"0212345678"` is rejected, while `"07"` followed by 8
Arabic-Indic digits is accepted (`\d` is not ASCII-only). -/
theorem kenyan_validator_accepts_iff (c : Char) (cs : List Char) :
    (validate_kenyan_number (some (String.mk (c :: cs))) = VResult.ok ↔
      kenyanAcceptedShape (c :: cs))
    ∧ (validate_kenyan_number (some (String.mk (c :: cs))) = VResult.ok
        ∨ validate_kenyan_number (some (String.mk (c :: cs))) = VResult.invalidFormat)
    ∧ validate_kenyan_number (some ("0112345678")) = VResult.ok
    ∧ validate_kenyan_number (some ("0712345678")) = VResult.ok
    ∧ validate_kenyan_number (some ("0212345678")) = VResult.invalidFormat
    ∧ validate_kenyan_number (some ("+0712345678")) = VResult.invalidFormat
    ∧ validate_kenyan_number (some ("07٥٥٥٥٥٥٥٥")) = VResult.ok := by
  refine ⟨?_, ?_, by decide, by decide, by decide, by decide, by decide⟩
  · rw [validate_ken_mk]
    by_cases hm : KENYAN_MOBILE_REGEX_match (c :: cs) = true
    · rw [if_pos hm]
      exact iff_of_true rfl ((KENYAN_MOBILE_REGEX_match_iff _).mp hm)
    · rw [if_neg hm]
      exact iff_of_false (by decide)
        (fun hx => hm ((KENYAN_MOBILE_REGEX_match_iff _).mpr hx))
  · rw [validate_ken_mk]
    by_cases hm : KENYAN_MOBILE_REGEX_match (c :: cs) = true
    · rw [if_pos hm]
      exact Or.inl rfl
    · rw [if_neg hm]
      exact Or.inr rfl

/-- C1, counterexample to the claim as stated: the claim asserts that
`"+0712345678"` (optional `+`, then `0`, then `7` and 8 digits) is accepted
by the generic validator, but the code rejects it with the format error —
in the regex the optional `+` can precede only `254`, not `0`. -/
theorem kenyan_rejects_plus_zero :
    validate_kenyan_number (some ("+0712345678")) = VResult.invalidFormat := by
  decide

theorem ken_l_plus254 (x : List Char) :
    KenyanPhoneField.to_python_l ('+' :: '2' :: '5' :: '4' :: x) =
      '2' :: '5' :: '4' :: x := by
  simp [KenyanPhoneField.to_python_l, List.cons_prefix_cons]

theorem ken_l_254 (x : List Char) :
    KenyanPhoneField.to_python_l ('2' :: '5' :: '4' :: x) =
      '2' :: '5' :: '4' :: x := by
  simp [KenyanPhoneField.to_python_l, List.cons_prefix_cons]

theorem ken_l_zero (x : List Char) :
    KenyanPhoneField.to_python_l ('0' :: x) = '2' :: '5' :: '4' :: x := by
  simp [KenyanPhoneField.to_python_l, List.cons_prefix_cons]

/-- C10 (amended): every non-empty string accepted by the generic validator
is normalized by the generic `to_python` to `254` + 9 characters (first `7`
or `1`, then 8 Unicode decimal digits) + optionally the accepted input's final
newline: 12 characters, or 13 only when the 13th is that newline — never
the 13-character `254` + 10-digit form the field's max_length of 13 would
allow. -/
theorem generic_accepted_normal_form (c : Char) (cs : List Char)
    (hok : validate_kenyan_number (some (String.mk (c :: cs))) = VResult.ok) :
    ∃ t : String, KenyanPhoneField.to_python (some (String.mk (c :: cs))) = some t
      ∧ (∃ (hd : Char) (ds nl : List Char), (hd = '7' ∨ hd = '1') ∧ ds.length = 8
          ∧ ds.all isPyDigit = true ∧ (nl = [] ∨ nl = ['\n'])
          ∧ t.toList = ('2' :: '5' :: '4' :: hd :: ds) ++ nl)
      ∧ (t.length = 12 ∨ (t.length = 13 ∧ t.toList.getLast? = some '\n'))
      ∧ ¬ (t.length = 13 ∧ t.toList.all isPyDigit = true) := by
  have hm : KENYAN_MOBILE_REGEX_match (c :: cs) = true := by
    by_contra hm'
    rw [validate_ken_mk, if_neg hm'] at hok
    exact VResult.noConfusion hok
  obtain ⟨pre, body, nl, hpre, ⟨hd, ds, hhd, hds, hdig, rfl⟩, hnl, hcs⟩ :=
    (KENYAN_MOBILE_REGEX_match_iff _).mp hm
  have hres : KenyanPhoneField.to_python_l (c :: cs) =
      '2' :: '5' :: '4' :: hd :: (ds ++ nl) := by
    rcases hpre with rfl | rfl | rfl
    · rw [hcs]
      exact ken_l_plus254 (hd :: (ds ++ nl))
    · rw [hcs]
      exact ken_l_254 (hd :: (ds ++ nl))
    · rw [hcs]
      exact ken_l_zero (hd :: (ds ++ nl))
  refine ⟨String.mk ('2' :: '5' :: '4' :: hd :: (ds ++ nl)), ?_, ?_, ?_, ?_⟩
  · rw [ken_to_python_mk, hres]
  · exact ⟨hd, ds, nl, hhd, hds, hdig, hnl, by simp⟩
  · rcases hnl with rfl | rfl
    · left
      show ('2' :: '5' :: '4' :: hd :: (ds ++ [])).length = 12
      simp [hds]
    · right
      constructor
      · show ('2' :: '5' :: '4' :: hd :: (ds ++ ['\n'])).length = 13
        simp [hds]
      · show ('2' :: '5' :: '4' :: hd :: (ds ++ ['\n'])).getLast? = some '\n'
        rw [show ('2' :: '5' :: '4' :: hd :: (ds ++ ['\n'])) =
            ('2' :: '5' :: '4' :: hd :: ds) ++ ['\n'] from by simp,
          List.getLast?_concat]
  · rcases hnl with rfl | rfl
    · rintro ⟨h13, -⟩
      have h13' : ('2' :: '5' :: '4' :: hd :: (ds ++ [])).length = 13 := h13
      have h12 : ('2' :: '5' :: '4' :: hd :: (ds ++ [])).length = 12 := by simp [hds]
      omega
    · rintro ⟨-, hall⟩
      have hall' : ('2' :: '5' :: '4' :: hd :: (ds ++ ['\n'])).all isPyDigit = true :=
        hall
      have hmem : ('\n' : Char) ∈ ('2' :: '5' :: '4' :: hd :: (ds ++ ['\n'])) := by simp
      have hdig' := List.all_eq_true.mp hall' '\n' hmem
      exact absurd hdig' (by decide)

/-- C10, counterexample to the claim as stated: `"0712345678\n"` is accepted
by the generic validator (Python's `$` matches before a terminal newline),
and the generic `to_python` normalizes it to the 13-character string
`"254712345678\n"`, not to a string of exactly 12 characters. -/
theorem generic_newline_input_normalizes_to_13 :
    validate_kenyan_number (some ("0712345678\n")) = VResult.ok
    ∧ KenyanPhoneField.to_python (some ("0712345678\n")) = some ("254712345678\n")
    ∧ ¬ ("254712345678\n" : String).length = 12 := by
  refine ⟨by decide, by decide, by decide⟩

/-- C10, witness: the theorem applied to the accepted input `"0712345678"`. -/
theorem generic_accepted_normal_form_witness :
    validate_kenyan_number
        (some (String.mk ('0' :: ['7', '1', '2', '3', '4', '5', '6', '7', '8']))) =
      VResult.ok
    ∧ (∃ t : String, KenyanPhoneField.to_python
          (some (String.mk ('0' :: ['7', '1', '2', '3', '4', '5', '6', '7', '8']))) = some t
        ∧ (∃ (hd : Char) (ds nl : List Char), (hd = '7' ∨ hd = '1') ∧ ds.length = 8
            ∧ ds.all isPyDigit = true ∧ (nl = [] ∨ nl = ['\n'])
            ∧ t.toList = ('2' :: '5' :: '4' :: hd :: ds) ++ nl)
        ∧ (t.length = 12 ∨ (t.length = 13 ∧ t.toList.getLast? = some '\n'))
        ∧ ¬ (t.length = 13 ∧ t.toList.all isPyDigit = true)) :=
  ⟨by decide,
    generic_accepted_normal_form '0' ['7', '1', '2', '3', '4', '5', '6', '7', '8'] (by decide)⟩
